import Mathlib

/-!
# Verification of the LookingGlass EGL desktop renderer core

A shallow embedding of `src/client/renderers/EGL/desktop.c`.  The mutable
`struct EGL_Desktop` becomes an explicit state record; every C function of the
file becomes a Lean function from the state (plus the results of the external
GPU/texture collaborators, passed in as explicit booleans) to a new state and
its observable outputs.  C `int` fields are modelled as `Int`; the `float`
sharpness uniforms are modelled as exact rationals (`ℚ`), which is faithful for
the control flow verified here (only equality tests and the affine map
`2 - r*2` occur).  GPU-side handles (texture, shaders, mesh, matrix buffer) are
not data of this model; the calls into them are recorded as trace fields or
driven by environment booleans giving their success or failure.
-/

/-- `enum EGL_DesktopScaleType` from desktop.h (callers pass the detected
scale relation of the frame to the window). -/
inductive EGL_DesktopScaleType where
  | EGL_DESKTOP_NOSCALE
  | EGL_DESKTOP_UPSCALE
  | EGL_DESKTOP_DOWNSCALE
deriving DecidableEq, Repr

/-- `EGL_SCALE_AUTO` (desktop.h scale-algorithm enum, value 0). -/
def EGL_SCALE_AUTO : Int := 0

/-- `EGL_SCALE_NEAREST` (desktop.h scale-algorithm enum, value 1). -/
def EGL_SCALE_NEAREST : Int := 1

/-- `EGL_SCALE_LINEAR` (desktop.h scale-algorithm enum, value 2). -/
def EGL_SCALE_LINEAR : Int := 2

/-- `EGL_SCALE_MAX` (desktop.h): one past the last valid scale algorithm.
The `algorithmNames` table in desktop.c has exactly the three entries
Auto/Nearest/Linear, so `EGL_SCALE_MAX = 3`. -/
def EGL_SCALE_MAX : Int := 3

/-- The frame pixel-format tag (`FrameType` of the common headers).  The four
constructors named here are the ones `egl_desktopSetup` accepts; `other`
stands for every remaining `FRAME_TYPE_*` value (including the zero value
`FRAME_TYPE_INVALID`, which a `calloc`ed format field holds). -/
inductive FrameType where
  | BGRA
  | RGBA
  | RGBA10
  | RGBA16F
  | other
deriving DecidableEq, Repr

/-- `enum EGL_PixelFormat` values reachable from `egl_desktopSetup`. -/
inductive EGL_PixelFormat where
  | EGL_PF_BGRA
  | EGL_PF_RGBA
  | EGL_PF_RGBA10
  | EGL_PF_RGBA16F
deriving DecidableEq, Repr

/-- The `switch (format.type)` of `egl_desktopSetup`: the pixel format chosen
for a frame type, `none` on the `default:` (unsupported) branch. -/
def pixFmtOf : FrameType → Option EGL_PixelFormat
  | .BGRA    => some .EGL_PF_BGRA
  | .RGBA    => some .EGL_PF_RGBA
  | .RGBA10  => some .EGL_PF_RGBA10
  | .RGBA16F => some .EGL_PF_RGBA16F
  | .other   => none

/-- `LG_RendererFormat`: the fields desktop.c reads (type, width, height,
pitch). -/
structure RendererFormat where
  type : FrameType
  width : Int
  height : Int
  pitch : Int
deriving DecidableEq, Repr

/-- An axis-aligned damage rectangle (`FrameDamageRect`): x, y, width,
height.  desktop.c only forwards these, so the coordinates are opaque. -/
def FrameDamageRect : Type := Int × Int × Int × Int
deriving instance DecidableEq for FrameDamageRect

/-- The state of `struct EGL_Desktop` (desktop.c lines 57-94), restricted to
the data fields the functions of the file read or write.  The filter
`activeNow` flags (`ffxFSR1Active0/1`, `ffxCASActive`) and resolutions live in
the texture's post-process handles in C; they are folded into this record
because `egl_textureAddFilter` / `egl_textureEnableFilter` /
`egl_textureSetFilterRes` are their only mutators and all are called from this
file. -/
structure EGL_Desktop where
  width : Int
  height : Int
  upscale : Bool
  scaleAlgo : Int
  nvMax : Int
  nvGain : Int
  cbMode : Int
  useDMA : Bool
  format : RendererFormat
  ffxFSR1Enable : Bool
  ffxFSR1Active0 : Bool
  ffxFSR1Active1 : Bool
  ffxFSR1Res0 : Int × Int
  ffxFSR1Res1 : Int × Int
  ffxFSR1Uniform : ℚ
  ffxCASEnable : Bool
  ffxCASActive : Bool
  ffxCASRes : Int × Int
  ffxCASUniform : ℚ
deriving DecidableEq, Repr

/-- `setupFilters` (desktop.c lines 125-137): attaches the two FSR passes and
the CAS pass to the current texture.  `egl_textureAddFilter` takes the initial
enabled flag, which is `ffxFSR1Enable` resp. `ffxCASEnable` — the `upscale`
state is not consulted. -/
def setupFilters (s : EGL_Desktop) : EGL_Desktop :=
  { s with ffxFSR1Active0 := s.ffxFSR1Enable,
           ffxFSR1Active1 := s.ffxFSR1Enable,
           ffxCASActive   := s.ffxCASEnable }

/-- The configuration values `egl_desktopInit` loads from the option store
(`option_get_*` calls, desktop.c lines 185-221). -/
structure InitOptions where
  nvGainMax : Int
  nvGain : Int
  cbMode : Int
  scale : Int
  useDMA : Bool
  ffxFSREnable : Bool
  ffxFSRSharpness : ℚ
  ffxCASEnable : Bool
  ffxCASSharpness : ℚ
deriving DecidableEq, Repr

/-- Success/failure of the fallible collaborator calls inside
`egl_desktopInit` (calloc, `egl_textureInit`, shader build,
`egl_desktopRectsInit`, `countedBufferNew`). -/
structure InitEnv where
  allocOk : Bool
  texInitOk : Bool
  shaderOk : Bool
  meshOk : Bool
  matrixOk : Bool
deriving DecidableEq, Repr

/-- `egl_desktopInit` (desktop.c lines 139-227).  On any collaborator failure
the function returns false and no usable surface exists (`none`).  On success:
the struct is `calloc`ed (all fields zero/false), the option values are
loaded, the FSR sharpness uniform is set to the RAW configured value (line
206), the CAS sharpness uniform to the raw configured value (line 220), and
`setupFilters` attaches the filters with their configured enable flags. -/
def egl_desktopInit (env : InitEnv) (opts : InitOptions) : Option EGL_Desktop :=
  if env.allocOk && env.texInitOk && env.shaderOk && env.meshOk && env.matrixOk then
    some (setupFilters
      { width := 0
        height := 0
        upscale := false
        scaleAlgo := opts.scale
        nvMax := opts.nvGainMax
        nvGain := opts.nvGain
        cbMode := opts.cbMode
        useDMA := opts.useDMA
        format := ⟨.other, 0, 0, 0⟩
        ffxFSR1Enable := opts.ffxFSREnable
        ffxFSR1Active0 := false
        ffxFSR1Active1 := false
        ffxFSR1Res0 := (0, 0)
        ffxFSR1Res1 := (0, 0)
        ffxFSR1Uniform := opts.ffxFSRSharpness
        ffxCASEnable := opts.ffxCASEnable
        ffxCASActive := false
        ffxCASRes := (0, 0)
        ffxCASUniform := opts.ffxCASSharpness })
  else
    none

/-- `toggleNV` (desktop.c lines 229-240): `if (nvGain++ == nvMax) nvGain = 0`,
then an alert and `app_invalidateWindow(true)`.  The returned `Bool` records
that the window was invalidated (it always is). -/
def toggleNV (s : EGL_Desktop) : EGL_Desktop × Bool :=
  let g := s.nvGain
  let s := { s with nvGain := g + 1 }
  let s := if g = s.nvMax then { s with nvGain := 0 } else s
  (s, true)

/-- `n` keybind-triggered night-vision toggles in sequence. -/
def nvIterate (s : EGL_Desktop) : Nat → EGL_Desktop
  | 0 => s
  | n + 1 => (toggleNV (nvIterate s n)).1

/-- `egl_desktopScaleValidate` (desktop.c lines 242-249): accepts
`0 ≤ v < EGL_SCALE_MAX`; otherwise returns false with the error string. -/
def egl_desktopScaleValidate (v : Int) : Bool × Option String :=
  if 0 ≤ v ∧ v < EGL_SCALE_MAX then (true, none)
  else (false, some "Invalid scale algorithm number")

/-- Modelled from the spec: the configuration store (`common/option.c`, not
under src/) runs the registered validator on a proposed value and, when the
validator rejects, keeps the previously accepted value and surfaces the
validator's error message instead of clamping. -/
def scaleOptionLoad (current proposed : Int) : Int × Option String :=
  match egl_desktopScaleValidate proposed with
  | (true, _) => (proposed, none)
  | (false, err) => (current, err)

/-- The values the immediate-mode widgets of `egl_desktopConfigUI` hold after
the user interaction of one frame: the combo selection (one of the
`EGL_SCALE_MAX` entries; `none` when the combo is closed), the night-vision
slider value (the widget clamps it to `[0, nvMax]`), the two filter
checkboxes, and the two sharpness sliders. -/
structure ConfigUIInput where
  scaleSel : Option (Fin 3)
  nvGain : Int
  fsr1Box : Bool
  fsr1Sharpness : ℚ
  casBox : Bool
  casSharpness : ℚ
deriving DecidableEq, Repr

/-- The observable side effects of one `egl_desktopConfigUI` call:
`egl_textureInvalidate` and `app_invalidateWindow(true)` (desktop.c lines
378-382, both fired exactly when `invalidateTex` was set). -/
structure ConfigUIOut where
  texInvalidated : Bool
  windowInvalidated : Bool
deriving DecidableEq, Repr

/-- The opening of `egl_desktopConfigUI` (desktop.c lines 277-305): the
scale-algorithm combo writes the selected index into `scaleAlgo`, and the
night-vision slider writes into `nvGain`. -/
def uiPre (inp : ConfigUIInput) (s : EGL_Desktop) : EGL_Desktop :=
  let s := match inp.scaleSel with
    | some i => { s with scaleAlgo := (i.val : Int) }
    | none => s
  { s with nvGain := inp.nvGain }

/-- The FSR section of `egl_desktopConfigUI` (desktop.c lines 308-344):
checkbox toggle (enable the two filter passes at `fsr1 && upscale`), then the
sharpness slider — when the slider value differs from the stored uniform, the
stage is enabled if it was off, and the uniform becomes `2.0 - v * 2.0`.
Returns the new state and the accumulated `invalidateTex` flag. -/
def uiFsrPhase (inp : ConfigUIInput) (s0 : EGL_Desktop) : EGL_Desktop × Bool :=
  let fsr1 := inp.fsr1Box
  let p1 :=
    if fsr1 ≠ s0.ffxFSR1Enable then
      ({ s0 with
         ffxFSR1Enable := fsr1
         ffxFSR1Active0 := fsr1 && s0.upscale
         ffxFSR1Active1 := fsr1 && s0.upscale }, true)
    else (s0, false)
  let s1 := p1.1
  if inp.fsr1Sharpness ≠ s1.ffxFSR1Uniform then
    let s2 :=
      if fsr1 = false then
        { s1 with
          ffxFSR1Enable := true
          ffxFSR1Active0 := s1.upscale
          ffxFSR1Active1 := s1.upscale }
      else s1
    ({ s2 with ffxFSR1Uniform := 2 - inp.fsr1Sharpness * 2 }, true)
  else
    (s1, p1.2)

/-- The CAS section of `egl_desktopConfigUI` (desktop.c lines 346-376):
checkbox toggle (CAS is not gated on `upscale`), then the sharpness slider —
when the value differs from the stored uniform, the stage is enabled if it was
off, and the uniform becomes the raw value. -/
def uiCasPhase (inp : ConfigUIInput) (inv0 : Bool) (s0 : EGL_Desktop) :
    EGL_Desktop × Bool :=
  let cas := inp.casBox
  let p1 :=
    if cas ≠ s0.ffxCASEnable then
      ({ s0 with ffxCASEnable := cas, ffxCASActive := cas }, true)
    else (s0, inv0)
  let s1 := p1.1
  if inp.casSharpness ≠ s1.ffxCASUniform then
    let s2 :=
      if cas = false then
        { s1 with ffxCASEnable := true, ffxCASActive := true }
      else s1
    ({ s2 with ffxCASUniform := inp.casSharpness }, true)
  else
    (s1, p1.2)

/-- `egl_desktopConfigUI` (desktop.c lines 275-383): scale-algorithm combo,
night-vision slider, then the FSR and CAS sections; finally the texture and
window are invalidated when any section set `invalidateTex`. -/
def egl_desktopConfigUI (s : EGL_Desktop) (inp : ConfigUIInput) :
    EGL_Desktop × ConfigUIOut :=
  let s := uiPre inp s
  let pf := uiFsrPhase inp s
  let pc := uiCasPhase inp pf.2 pf.1
  (pc.1, ⟨pc.2, pc.2⟩)

/-- `egl_desktopSetup` (desktop.c lines 385-429): the format is `memcpy`ed
into the state FIRST (line 387); the frame-type switch then rejects
unsupported formats (`default:` returns false, with `format` already
overwritten and width/height untouched); otherwise width/height are stored
and `egl_textureSetup` runs (its success arrives as `texSetupOk`). -/
def egl_desktopSetup (s : EGL_Desktop) (format : RendererFormat)
    (texSetupOk : Bool) : EGL_Desktop × Bool :=
  let s := { s with format := format }
  match pixFmtOf format.type with
  | none => (s, false)
  | some _ =>
    let s := { s with width := format.width, height := format.height }
    (s, texSetupOk)

/-- Success/failure of the collaborator calls inside `egl_desktopUpdate`:
`egl_textureUpdateFromDMA`, the replacement `egl_textureInit`
(`EGL_TEXTYPE_FRAMEBUFFER`), `egl_textureSetup` inside the re-run
`egl_desktopSetup`, and `egl_textureUpdateFromFrame`. -/
structure UpdateEnv where
  dmaOk : Bool
  initOk : Bool
  texSetupOk : Bool
  frameOk : Bool
deriving DecidableEq, Repr

/-- The observable actions of one `egl_desktopUpdate` call, in the order the
code performs them: whether the zero-copy (DMA) import was attempted, whether
the `DEBUG_WARN("DMA update failed, ...")` log fired, whether the texture was
freed and a buffered (`EGL_TEXTYPE_FRAMEBUFFER`) replacement construction was
attempted, whether `setupFilters` re-attached the filter stages, the format
the re-run `egl_desktopSetup` received (if reached), and the frame/rects the
buffered `egl_textureUpdateFromFrame` ingestion received (if reached). -/
structure UpdateTrace where
  attemptedDMA : Bool
  loggedWarn : Bool
  freedTexture : Bool
  reinitBuffered : Bool
  refiltered : Bool
  rerunSetup : Option RendererFormat
  buffered : Option (Nat × List FrameDamageRect)
deriving DecidableEq

/-- The all-quiet trace. -/
def emptyTrace : UpdateTrace :=
  ⟨false, false, false, false, false, none, none⟩

/-- `egl_desktopUpdate` (desktop.c lines 431-457).  `frame` is an opaque id of
the `FrameBuffer*`.  Control flow: if `useDMA && dmaFd >= 0`, try the DMA
ingest and return true on success; on failure, warn, clear `useDMA`, free the
texture, re-init it as FRAMEBUFFER (returning false if that fails), re-attach
the filters, re-run `egl_desktopSetup` with the stored format (returning false
if that fails); finally — on the fallthrough as on the plain buffered path —
return `egl_textureUpdateFromFrame(texture, frame, damageRects, count)`. -/
def egl_desktopUpdate (s : EGL_Desktop) (env : UpdateEnv) (frame : Nat)
    (dmaFd : Int) (rects : List FrameDamageRect) :
    EGL_Desktop × Bool × UpdateTrace :=
  if s.useDMA = true ∧ dmaFd ≥ 0 then
    if env.dmaOk then
      (s, true, { emptyTrace with attemptedDMA := true })
    else
      let s := { s with useDMA := false }
      if env.initOk = false then
        (s, false, { emptyTrace with
                     attemptedDMA := true
                     loggedWarn := true
                     freedTexture := true
                     reinitBuffered := true })
      else
        let s := setupFilters s
        let fmt := s.format
        let p := egl_desktopSetup s fmt env.texSetupOk
        if p.2 = false then
          (p.1, false,
            { attemptedDMA := true
              loggedWarn := true
              freedTexture := true
              reinitBuffered := true
              refiltered := true
              rerunSetup := some fmt
              buffered := none })
        else
          (p.1, env.frameOk,
            { attemptedDMA := true
              loggedWarn := true
              freedTexture := true
              reinitBuffered := true
              refiltered := true
              rerunSetup := some fmt
              buffered := some (frame, rects) })
  else
    (s, env.frameOk, { emptyTrace with buffered := some (frame, rects) })

/-- `egl_desktopResize` (desktop.c lines 459-480): when both target dimensions
strictly exceed the stored desktop size, set `upscale`, enable the two FSR
passes only if `ffxFSR1Enable`, and set all three filter resolutions;
otherwise clear `upscale`, disable the two FSR passes unconditionally, and
zero the CAS resolution. -/
def egl_desktopResize (s : EGL_Desktop) (width height : Int) : EGL_Desktop :=
  if width > s.width ∧ height > s.height then
    let s := { s with upscale := true }
    let s :=
      if s.ffxFSR1Enable then
        { s with ffxFSR1Active0 := true, ffxFSR1Active1 := true }
      else s
    { s with
      ffxFSR1Res0 := (width, height)
      ffxFSR1Res1 := (width, height)
      ffxCASRes := (width, height) }
  else
    { s with
      upscale := false
      ffxFSR1Active0 := false
      ffxFSR1Active1 := false
      ffxCASRes := (0, 0) }

/-- The scale-algorithm selection of `egl_desktopRender` (desktop.c lines
493-519): if the final (post-filter) texture size exceeds the desktop size in
either axis, the caller's `scaleType` is overwritten with
`EGL_DESKTOP_DOWNSCALE`; then `switch (desktop->scaleAlgo)` maps `AUTO`
through the inner scale-type switch (`NOSCALE`/`UPSCALE → NEAREST`,
`DOWNSCALE → LINEAR`) and any other configured value to itself (the `default:`
branch).  The remainder of `egl_desktopRender` (matrix, rect mesh, uniform
assembly, draw) only calls out to the GPU collaborators. -/
def egl_desktopRenderScaleAlgo (s : EGL_Desktop)
    (scaleType : EGL_DesktopScaleType) (finalX finalY : Int) : Int :=
  let scaleType :=
    if finalX > s.width ∨ finalY > s.height then
      EGL_DesktopScaleType.EGL_DESKTOP_DOWNSCALE
    else scaleType
  if s.scaleAlgo = EGL_SCALE_AUTO then
    match scaleType with
    | .EGL_DESKTOP_NOSCALE => EGL_SCALE_NEAREST
    | .EGL_DESKTOP_UPSCALE => EGL_SCALE_NEAREST
    | .EGL_DESKTOP_DOWNSCALE => EGL_SCALE_LINEAR
  else
    s.scaleAlgo

/-- The ScaleSelector reference definition, transcribed from the spec's §4.3:
(1) if the final filtered size exceeds the logical size in either axis, force
the detected scale type to Downscale; (2) a non-Auto configured algorithm is
returned unconditionally; (3) otherwise Downscale maps to Linear and
NoScale/Upscale map to Nearest. -/
def scaleSelectSpec (configured : Int) (detected : EGL_DesktopScaleType)
    (finalX finalY logicalW logicalH : Int) : Int :=
  let detected :=
    if finalX > logicalW ∨ finalY > logicalH then
      EGL_DesktopScaleType.EGL_DESKTOP_DOWNSCALE
    else detected
  if configured ≠ EGL_SCALE_AUTO then configured
  else
    match detected with
    | .EGL_DESKTOP_DOWNSCALE => EGL_SCALE_LINEAR
    | .EGL_DESKTOP_NOSCALE => EGL_SCALE_NEAREST
    | .EGL_DESKTOP_UPSCALE => EGL_SCALE_NEAREST

/-- One externally driven operation on a live desktop surface: the mutating
entry points of desktop.c after construction. -/
inductive Op where
  | update (env : UpdateEnv) (frame : Nat) (dmaFd : Int)
      (rects : List FrameDamageRect)
  | resize (w h : Int)
  | configUI (inp : ConfigUIInput)
  | nvToggle
  | setup (fmt : RendererFormat) (texSetupOk : Bool)

/-- The state transition of one operation (outputs discarded). -/
def applyOp (s : EGL_Desktop) : Op → EGL_Desktop
  | .update env frame dmaFd rects =>
      (egl_desktopUpdate s env frame dmaFd rects).1
  | .resize w h => egl_desktopResize s w h
  | .configUI inp => (egl_desktopConfigUI s inp).1
  | .nvToggle => (toggleNV s).1
  | .setup fmt texSetupOk => (egl_desktopSetup s fmt texSetupOk).1

/-- The states a desktop surface can be in: a successful `egl_desktopInit`
followed by any sequence of operations. -/
inductive Reachable : EGL_Desktop → Prop
  | init (env : InitEnv) (opts : InitOptions) (s : EGL_Desktop) :
      egl_desktopInit env opts = some s → Reachable s
  | step (s : EGL_Desktop) (op : Op) : Reachable s → Reachable (applyOp s op)

/-- A concrete surface state used to instantiate the theorems: a BGRA
1920x1080 session with DMA active and both filters off. -/
def sampleState : EGL_Desktop :=
  { width := 1920
    height := 1080
    upscale := false
    scaleAlgo := 0
    nvMax := 4
    nvGain := 0
    cbMode := 0
    useDMA := true
    format := ⟨.BGRA, 1920, 1080, 7680⟩
    ffxFSR1Enable := false
    ffxFSR1Active0 := false
    ffxFSR1Active1 := false
    ffxFSR1Res0 := (0, 0)
    ffxFSR1Res1 := (0, 0)
    ffxFSR1Uniform := 0
    ffxCASEnable := false
    ffxCASActive := false
    ffxCASRes := (0, 0)
    ffxCASUniform := 0 }

/-! ## Helper lemmas -/

/-- The FSR `activeNow` flags never outrun the user enable flag: a filter pass
is only ever switched on from code paths that see (or set)
`ffxFSR1Enable = true`. -/
def fsrInvar (s : EGL_Desktop) : Prop :=
  (s.ffxFSR1Active0 = true → s.ffxFSR1Enable = true) ∧
  (s.ffxFSR1Active1 = true → s.ffxFSR1Enable = true)

theorem setupFilters_fsrInvar (s : EGL_Desktop) : fsrInvar (setupFilters s) := by
  unfold fsrInvar setupFilters
  simp

theorem uiCasPhase_fsrFields (inp : ConfigUIInput) (inv0 : Bool)
    (s : EGL_Desktop) :
    (uiCasPhase inp inv0 s).1.ffxFSR1Enable = s.ffxFSR1Enable ∧
    (uiCasPhase inp inv0 s).1.ffxFSR1Active0 = s.ffxFSR1Active0 ∧
    (uiCasPhase inp inv0 s).1.ffxFSR1Active1 = s.ffxFSR1Active1 ∧
    (uiCasPhase inp inv0 s).1.ffxFSR1Uniform = s.ffxFSR1Uniform ∧
    (uiCasPhase inp inv0 s).1.upscale = s.upscale := by
  simp only [uiCasPhase]
  split_ifs <;> simp

theorem uiCasPhase_inv_mono (inp : ConfigUIInput) (s : EGL_Desktop) :
    (uiCasPhase inp true s).2 = true := by
  simp only [uiCasPhase]
  split_ifs <;> simp

theorem uiFsrPhase_casFields (inp : ConfigUIInput) (s : EGL_Desktop) :
    (uiFsrPhase inp s).1.ffxCASEnable = s.ffxCASEnable ∧
    (uiFsrPhase inp s).1.ffxCASActive = s.ffxCASActive ∧
    (uiFsrPhase inp s).1.ffxCASUniform = s.ffxCASUniform ∧
    (uiFsrPhase inp s).1.upscale = s.upscale := by
  simp only [uiFsrPhase]
  split_ifs <;> simp

theorem uiFsrPhase_fsrInvar (inp : ConfigUIInput) (s : EGL_Desktop)
    (h : fsrInvar s) : fsrInvar (uiFsrPhase inp s).1 := by
  obtain ⟨h0, h1⟩ := h
  unfold fsrInvar
  simp only [uiFsrPhase]
  split_ifs <;> simp_all

theorem uiCasPhase_fsrInvar (inp : ConfigUIInput) (inv0 : Bool)
    (s : EGL_Desktop) (h : fsrInvar s) : fsrInvar (uiCasPhase inp inv0 s).1 := by
  obtain ⟨hf, ha0, ha1, -⟩ := uiCasPhase_fsrFields inp inv0 s
  unfold fsrInvar
  rw [hf, ha0, ha1]
  exact h

theorem uiPre_fields (inp : ConfigUIInput) (s : EGL_Desktop) :
    (uiPre inp s).ffxFSR1Enable = s.ffxFSR1Enable ∧
    (uiPre inp s).ffxFSR1Active0 = s.ffxFSR1Active0 ∧
    (uiPre inp s).ffxFSR1Active1 = s.ffxFSR1Active1 ∧
    (uiPre inp s).ffxFSR1Uniform = s.ffxFSR1Uniform ∧
    (uiPre inp s).ffxCASEnable = s.ffxCASEnable ∧
    (uiPre inp s).ffxCASActive = s.ffxCASActive ∧
    (uiPre inp s).ffxCASUniform = s.ffxCASUniform ∧
    (uiPre inp s).upscale = s.upscale ∧
    (uiPre inp s).useDMA = s.useDMA := by
  unfold uiPre
  cases inp.scaleSel <;> simp

theorem configUI_fsrInvar (inp : ConfigUIInput) (s : EGL_Desktop)
    (h : fsrInvar s) : fsrInvar (egl_desktopConfigUI s inp).1 := by
  have hpre : fsrInvar (uiPre inp s) := by
    obtain ⟨h1, h2, h3, -⟩ := uiPre_fields inp s
    unfold fsrInvar
    rw [h1, h2, h3]
    exact h
  exact uiCasPhase_fsrInvar inp _ _ (uiFsrPhase_fsrInvar inp _ hpre)

theorem setup_fsrFields (s : EGL_Desktop) (fmt : RendererFormat) (ok : Bool) :
    (egl_desktopSetup s fmt ok).1.ffxFSR1Enable = s.ffxFSR1Enable ∧
    (egl_desktopSetup s fmt ok).1.ffxFSR1Active0 = s.ffxFSR1Active0 ∧
    (egl_desktopSetup s fmt ok).1.ffxFSR1Active1 = s.ffxFSR1Active1 ∧
    (egl_desktopSetup s fmt ok).1.upscale = s.upscale ∧
    (egl_desktopSetup s fmt ok).1.useDMA = s.useDMA := by
  unfold egl_desktopSetup
  cases pixFmtOf fmt.type <;> simp

theorem resize_fsrInvar (s : EGL_Desktop) (w h : Int) (hs : fsrInvar s) :
    fsrInvar (egl_desktopResize s w h) := by
  obtain ⟨h0, h1⟩ := hs
  unfold fsrInvar
  simp only [egl_desktopResize]
  split_ifs <;> simp_all

theorem update_fsrInvar (s : EGL_Desktop) (env : UpdateEnv) (frame : Nat)
    (dmaFd : Int) (rects : List FrameDamageRect) (hs : fsrInvar s) :
    fsrInvar (egl_desktopUpdate s env frame dmaFd rects).1 := by
  have hsf : fsrInvar (egl_desktopSetup (setupFilters { s with useDMA := false })
      (setupFilters { s with useDMA := false }).format env.texSetupOk).1 := by
    obtain ⟨he, ha0, ha1, -⟩ := setup_fsrFields (setupFilters { s with useDMA := false })
      (setupFilters { s with useDMA := false }).format env.texSetupOk
    unfold fsrInvar
    rw [he, ha0, ha1]
    exact setupFilters_fsrInvar _
  obtain ⟨h0, h1⟩ := hs
  unfold fsrInvar
  simp only [egl_desktopUpdate]
  split_ifs <;> simp_all [fsrInvar]

theorem applyOp_fsrInvar (s : EGL_Desktop) (op : Op) (hs : fsrInvar s) :
    fsrInvar (applyOp s op) := by
  cases op with
  | update env frame dmaFd rects => exact update_fsrInvar s env frame dmaFd rects hs
  | resize w h => exact resize_fsrInvar s w h hs
  | configUI inp => exact configUI_fsrInvar inp s hs
  | nvToggle =>
      obtain ⟨h0, h1⟩ := hs
      unfold fsrInvar
      simp only [applyOp, toggleNV]
      split_ifs <;> simp_all
  | setup fmt ok =>
      obtain ⟨he, ha0, ha1, -⟩ := setup_fsrFields s fmt ok
      unfold applyOp fsrInvar
      rw [he, ha0, ha1]
      exact hs

theorem reachable_fsrInvar (s : EGL_Desktop) (hs : Reachable s) : fsrInvar s := by
  induction hs with
  | init env opts s h =>
      unfold egl_desktopInit at h
      split_ifs at h
      injection h with h
      rw [← h]
      exact setupFilters_fsrInvar _
  | step s op _ ih => exact applyOp_fsrInvar s op ih

theorem uiFsrPhase_useDMA (inp : ConfigUIInput) (s : EGL_Desktop) :
    (uiFsrPhase inp s).1.useDMA = s.useDMA := by
  simp only [uiFsrPhase]
  split_ifs <;> simp

theorem uiCasPhase_useDMA (inp : ConfigUIInput) (inv0 : Bool) (s : EGL_Desktop) :
    (uiCasPhase inp inv0 s).1.useDMA = s.useDMA := by
  simp only [uiCasPhase]
  split_ifs <;> simp

theorem configUI_useDMA (s : EGL_Desktop) (inp : ConfigUIInput) :
    (egl_desktopConfigUI s inp).1.useDMA = s.useDMA := by
  simp only [egl_desktopConfigUI]
  rw [uiCasPhase_useDMA, uiFsrPhase_useDMA, (uiPre_fields inp s).2.2.2.2.2.2.2.2]

theorem resize_useDMA (s : EGL_Desktop) (w h : Int) :
    (egl_desktopResize s w h).useDMA = s.useDMA := by
  simp only [egl_desktopResize]
  split_ifs <;> simp

theorem toggleNV_useDMA (s : EGL_Desktop) :
    (toggleNV s).1.useDMA = s.useDMA := by
  simp only [toggleNV]
  split_ifs <;> simp

theorem toggleNV_nvMax (s : EGL_Desktop) : (toggleNV s).1.nvMax = s.nvMax := by
  simp only [toggleNV]
  split_ifs <;> simp

theorem toggleNV_gain (s : EGL_Desktop) (h0 : 0 ≤ s.nvGain)
    (h1 : s.nvGain ≤ s.nvMax) :
    (toggleNV s).1.nvGain = (s.nvGain + 1) % (s.nvMax + 1) := by
  simp only [toggleNV]
  split_ifs with h
  · simp [h, Int.emod_self]
  · have hlt : s.nvGain + 1 < s.nvMax + 1 := by omega
    simp [Int.emod_eq_of_lt (by omega) hlt]

theorem uiFsrPhase_uniform (inp : ConfigUIInput) (s : EGL_Desktop)
    (hne : inp.fsr1Sharpness ≠ s.ffxFSR1Uniform) :
    (uiFsrPhase inp s).1.ffxFSR1Uniform = 2 - inp.fsr1Sharpness * 2 := by
  simp only [uiFsrPhase]
  split_ifs <;> simp_all

theorem uiCasPhase_uniform (inp : ConfigUIInput) (inv0 : Bool) (s : EGL_Desktop)
    (hne : inp.casSharpness ≠ s.ffxCASUniform) :
    (uiCasPhase inp inv0 s).1.ffxCASUniform = inp.casSharpness := by
  simp only [uiCasPhase]
  split_ifs <;> simp_all

theorem uiFsrPhase_sharpen (inp : ConfigUIInput) (s : EGL_Desktop)
    (hbox : inp.fsr1Box = false) (hen : s.ffxFSR1Enable = false)
    (hne : inp.fsr1Sharpness ≠ s.ffxFSR1Uniform) :
    (uiFsrPhase inp s).1.ffxFSR1Enable = true ∧ (uiFsrPhase inp s).2 = true := by
  simp only [uiFsrPhase]
  split_ifs <;> simp_all

theorem uiCasPhase_sharpen (inp : ConfigUIInput) (inv0 : Bool) (s : EGL_Desktop)
    (hbox : inp.casBox = false) (hen : s.ffxCASEnable = false)
    (hne : inp.casSharpness ≠ s.ffxCASUniform) :
    (uiCasPhase inp inv0 s).1.ffxCASEnable = true ∧
    (uiCasPhase inp inv0 s).2 = true := by
  simp only [uiCasPhase]
  split_ifs <;> simp_all

theorem setupFilters_eq (s : EGL_Desktop) :
    (setupFilters s).useDMA = s.useDMA ∧ (setupFilters s).format = s.format ∧
    (setupFilters s).upscale = s.upscale ∧
    (setupFilters s).ffxFSR1Uniform = s.ffxFSR1Uniform ∧
    (setupFilters s).ffxCASUniform = s.ffxCASUniform := by
  simp [setupFilters]

/-- The state a successful `egl_desktopInit` yields for the default
configuration (night-vision max 4, everything else zero/off, DMA on). -/
def initStateA : EGL_Desktop :=
  setupFilters
    { width := 0
      height := 0
      upscale := false
      scaleAlgo := 0
      nvMax := 4
      nvGain := 0
      cbMode := 0
      useDMA := true
      format := ⟨.other, 0, 0, 0⟩
      ffxFSR1Enable := false
      ffxFSR1Active0 := false
      ffxFSR1Active1 := false
      ffxFSR1Res0 := (0, 0)
      ffxFSR1Res1 := (0, 0)
      ffxFSR1Uniform := 0
      ffxCASEnable := false
      ffxCASActive := false
      ffxCASRes := (0, 0)
      ffxCASUniform := 0 }

theorem initStateA_reachable : Reachable initStateA :=
  Reachable.init ⟨true, true, true, true, true⟩ ⟨4, 0, 0, 0, true, false, 0, false, 0⟩
    initStateA rfl

theorem update_noDMA_buffered (s : EGL_Desktop) (env : UpdateEnv) (frame : Nat)
    (dmaFd : Int) (rects : List FrameDamageRect) (h : s.useDMA = false) :
    (egl_desktopUpdate s env frame dmaFd rects).1.useDMA = false ∧
    (egl_desktopUpdate s env frame dmaFd rects).2.2.attemptedDMA = false ∧
    (egl_desktopUpdate s env frame dmaFd rects).2.2.buffered =
      some (frame, rects) ∧
    (egl_desktopUpdate s env frame dmaFd rects).2.1 = env.frameOk := by
  simp [egl_desktopUpdate, h, emptyTrace]

theorem setup_result (t : EGL_Desktop) (fmt : RendererFormat) (ok : Bool) :
    (egl_desktopSetup t fmt ok).2 = ((pixFmtOf fmt.type).isSome && ok) := by
  unfold egl_desktopSetup
  cases pixFmtOf fmt.type <;> simp

theorem setup_useDMA (t : EGL_Desktop) (fmt : RendererFormat) (ok : Bool) :
    (egl_desktopSetup t fmt ok).1.useDMA = t.useDMA := by
  unfold egl_desktopSetup
  cases pixFmtOf fmt.type <;> simp

theorem setup_format (t : EGL_Desktop) (fmt : RendererFormat) (ok : Bool) :
    (egl_desktopSetup t fmt ok).1.format = fmt := by
  unfold egl_desktopSetup
  cases pixFmtOf fmt.type <;> simp

theorem update_dmaFail_clearsDMA (s : EGL_Desktop) (env : UpdateEnv)
    (frame : Nat) (dmaFd : Int) (rects : List FrameDamageRect)
    (h : s.useDMA = true) (hfd : dmaFd ≥ 0) (hfail : env.dmaOk = false) :
    (egl_desktopUpdate s env frame dmaFd rects).1.useDMA = false := by
  simp only [egl_desktopUpdate, h, hfail]
  have hsf := (setupFilters_eq { s with useDMA := false }).1
  have hsetup := (setup_fsrFields (setupFilters { s with useDMA := false })
    (setupFilters { s with useDMA := false }).format env.texSetupOk).2.2.2.2
  split_ifs <;> simp_all

theorem applyOp_useDMA_mono (s : EGL_Desktop) (op : Op) (h : s.useDMA = false) :
    (applyOp s op).useDMA = false := by
  cases op with
  | update env frame dmaFd rects =>
      exact (update_noDMA_buffered s env frame dmaFd rects h).1
  | resize w h2 => rw [applyOp, resize_useDMA]; exact h
  | configUI inp => rw [applyOp, configUI_useDMA]; exact h
  | nvToggle => rw [applyOp, toggleNV_useDMA]; exact h
  | setup fmt ok =>
      rw [applyOp]
      rw [(setup_fsrFields s fmt ok).2.2.2.2]
      exact h

theorem update_dmaFail_spec (s : EGL_Desktop) (env : UpdateEnv) (frame : Nat)
    (dmaFd : Int) (rects : List FrameDamageRect)
    (hdma : s.useDMA = true) (hfd : dmaFd ≥ 0) (hfail : env.dmaOk = false) :
    (egl_desktopUpdate s env frame dmaFd rects).2.2.loggedWarn = true ∧
    (egl_desktopUpdate s env frame dmaFd rects).1.useDMA = false ∧
    (egl_desktopUpdate s env frame dmaFd rects).2.2.freedTexture = true ∧
    (egl_desktopUpdate s env frame dmaFd rects).2.2.reinitBuffered = true ∧
    (env.initOk = false →
      (egl_desktopUpdate s env frame dmaFd rects).2.1 = false ∧
      (egl_desktopUpdate s env frame dmaFd rects).2.2.buffered = none) ∧
    (env.initOk = true →
      (egl_desktopUpdate s env frame dmaFd rects).2.2.refiltered = true ∧
      (egl_desktopUpdate s env frame dmaFd rects).2.2.rerunSetup =
        some s.format ∧
      (((pixFmtOf s.format.type).isSome && env.texSetupOk) = false →
        (egl_desktopUpdate s env frame dmaFd rects).2.1 = false ∧
        (egl_desktopUpdate s env frame dmaFd rects).2.2.buffered = none) ∧
      (((pixFmtOf s.format.type).isSome && env.texSetupOk) = true →
        (egl_desktopUpdate s env frame dmaFd rects).2.2.buffered =
          some (frame, rects) ∧
        (egl_desktopUpdate s env frame dmaFd rects).2.1 = env.frameOk)) := by
  simp only [egl_desktopUpdate]
  split_ifs with h1 h2 h3 h4
  · exact absurd h2 (by simp [hfail])
  · simp [emptyTrace, h3]
  · have h3x : env.initOk = true := by simpa using h3
    rw [setup_result] at h4
    simp only [setupFilters] at h4 ⊢
    simp [emptyTrace, setup_useDMA, h4, h3x]
  · have h3x : env.initOk = true := by simpa using h3
    rw [setup_result] at h4
    rw [Bool.not_eq_false] at h4
    simp only [setupFilters] at h4 ⊢
    simp [emptyTrace, setup_useDMA, h4, h3x]
  · exact absurd ⟨hdma, hfd⟩ h1

/-! ## Claim theorems -/

/-- C1: once a zero-copy (DMA) ingestion failure occurs in
`egl_desktopUpdate`, the transfer path is permanently downgraded to the
buffered path: (a) with `useDMA` cleared, every later `egl_desktopUpdate`
skips the zero-copy branch entirely, performs buffered ingestion of the given
frame and rects, and returns the buffered result; (b) the failing call itself
clears `useDMA`; (c) no operation on a surface ever sets `useDMA` back to
true. -/
theorem egl_desktopUpdate_zero_copy_downgrade_permanent :
    (∀ (s : EGL_Desktop) (env : UpdateEnv) (frame : Nat) (dmaFd : Int)
        (rects : List FrameDamageRect), s.useDMA = false →
      (egl_desktopUpdate s env frame dmaFd rects).1.useDMA = false ∧
      (egl_desktopUpdate s env frame dmaFd rects).2.2.attemptedDMA = false ∧
      (egl_desktopUpdate s env frame dmaFd rects).2.2.buffered =
        some (frame, rects) ∧
      (egl_desktopUpdate s env frame dmaFd rects).2.1 = env.frameOk) ∧
    (∀ (s : EGL_Desktop) (env : UpdateEnv) (frame : Nat) (dmaFd : Int)
        (rects : List FrameDamageRect),
      s.useDMA = true → dmaFd ≥ 0 → env.dmaOk = false →
      (egl_desktopUpdate s env frame dmaFd rects).1.useDMA = false) ∧
    (∀ (s : EGL_Desktop) (op : Op), s.useDMA = false →
      (applyOp s op).useDMA = false) :=
  ⟨update_noDMA_buffered, update_dmaFail_clearsDMA, applyOp_useDMA_mono⟩

theorem egl_desktopUpdate_zero_copy_downgrade_permanent_witness :
    ((egl_desktopUpdate { sampleState with useDMA := false }
        ⟨true, true, true, true⟩ 7 3 []).1.useDMA = false ∧
      (egl_desktopUpdate { sampleState with useDMA := false }
        ⟨true, true, true, true⟩ 7 3 []).2.2.attemptedDMA = false ∧
      (egl_desktopUpdate { sampleState with useDMA := false }
        ⟨true, true, true, true⟩ 7 3 []).2.2.buffered = some (7, []) ∧
      (egl_desktopUpdate { sampleState with useDMA := false }
        ⟨true, true, true, true⟩ 7 3 []).2.1 = true) ∧
    (egl_desktopUpdate sampleState ⟨false, true, true, true⟩ 7 3
      []).1.useDMA = false ∧
    (applyOp { sampleState with useDMA := false } Op.nvToggle).useDMA = false :=
  ⟨egl_desktopUpdate_zero_copy_downgrade_permanent.1
      { sampleState with useDMA := false } ⟨true, true, true, true⟩ 7 3 [] rfl,
    egl_desktopUpdate_zero_copy_downgrade_permanent.2.1 sampleState
      ⟨false, true, true, true⟩ 7 3 [] rfl (by norm_num) rfl,
    egl_desktopUpdate_zero_copy_downgrade_permanent.2.2
      { sampleState with useDMA := false } Op.nvToggle rfl⟩

/-- C2: when `egl_desktopUpdate` runs with the zero-copy path active, a valid
handle (`dmaFd ≥ 0`) and a failing DMA import, then within that same call it
logs the warning, clears `useDMA`, frees the texture and attempts a buffered
replacement; when the replacement init succeeds it re-attaches the filter
stages and re-runs `egl_desktopSetup` with the stored (last-known) format, and
then performs buffered ingestion of the same frame and damage rects, returning
the buffered result; when the replacement init, the re-run setup, or the
buffered ingestion itself fails, the call returns false with no further
fallback. -/
theorem egl_desktopUpdate_dma_failure_recovery (s : EGL_Desktop)
    (env : UpdateEnv) (frame : Nat) (dmaFd : Int)
    (rects : List FrameDamageRect)
    (hdma : s.useDMA = true) (hfd : dmaFd ≥ 0) (hfail : env.dmaOk = false) :
    (egl_desktopUpdate s env frame dmaFd rects).2.2.loggedWarn = true ∧
    (egl_desktopUpdate s env frame dmaFd rects).1.useDMA = false ∧
    (egl_desktopUpdate s env frame dmaFd rects).2.2.freedTexture = true ∧
    (egl_desktopUpdate s env frame dmaFd rects).2.2.reinitBuffered = true ∧
    (env.initOk = false →
      (egl_desktopUpdate s env frame dmaFd rects).2.1 = false ∧
      (egl_desktopUpdate s env frame dmaFd rects).2.2.buffered = none) ∧
    (env.initOk = true →
      (egl_desktopUpdate s env frame dmaFd rects).2.2.refiltered = true ∧
      (egl_desktopUpdate s env frame dmaFd rects).2.2.rerunSetup =
        some s.format ∧
      (((pixFmtOf s.format.type).isSome && env.texSetupOk) = false →
        (egl_desktopUpdate s env frame dmaFd rects).2.1 = false ∧
        (egl_desktopUpdate s env frame dmaFd rects).2.2.buffered = none) ∧
      (((pixFmtOf s.format.type).isSome && env.texSetupOk) = true →
        (egl_desktopUpdate s env frame dmaFd rects).2.2.buffered =
          some (frame, rects) ∧
        (egl_desktopUpdate s env frame dmaFd rects).2.1 = env.frameOk)) :=
  update_dmaFail_spec s env frame dmaFd rects hdma hfd hfail

theorem egl_desktopUpdate_dma_failure_recovery_witness :
    (egl_desktopUpdate sampleState ⟨false, true, true, true⟩ 7 3
      []).2.2.loggedWarn = true ∧
    (egl_desktopUpdate sampleState ⟨false, true, true, true⟩ 7 3
      []).1.useDMA = false ∧
    (egl_desktopUpdate sampleState ⟨false, true, true, true⟩ 7 3
      []).2.2.freedTexture = true ∧
    (egl_desktopUpdate sampleState ⟨false, true, true, true⟩ 7 3
      []).2.2.reinitBuffered = true ∧
    (egl_desktopUpdate sampleState ⟨false, true, true, true⟩ 7 3
      []).2.2.refiltered = true ∧
    (egl_desktopUpdate sampleState ⟨false, true, true, true⟩ 7 3
      []).2.2.rerunSetup = some sampleState.format ∧
    (egl_desktopUpdate sampleState ⟨false, true, true, true⟩ 7 3
      []).2.2.buffered = some (7, []) ∧
    (egl_desktopUpdate sampleState ⟨false, true, true, true⟩ 7 3
      []).2.1 = true := by
  have h := egl_desktopUpdate_dma_failure_recovery sampleState
    ⟨false, true, true, true⟩ 7 3 [] rfl (by norm_num) rfl
  have hok := h.2.2.2.2.2 rfl
  exact ⟨h.1, h.2.1, h.2.2.1, h.2.2.2.1, hok.1, hok.2.1,
    (hok.2.2.2 rfl).1, (hok.2.2.2 rfl).2⟩

/-- C3: the per-frame effective scale algorithm computed by
`egl_desktopRender` equals the spec's reference ScaleSelector: the detected
scale type is forced to Downscale when the final filtered size exceeds the
logical desktop size in either axis; a non-Auto configured algorithm is
returned unconditionally; otherwise Downscale maps to Linear and
NoScale/Upscale map to Nearest. -/
theorem egl_desktopRender_scale_selection_matches_spec (s : EGL_Desktop)
    (scaleType : EGL_DesktopScaleType) (finalX finalY : Int) :
    egl_desktopRenderScaleAlgo s scaleType finalX finalY =
      scaleSelectSpec s.scaleAlgo scaleType finalX finalY s.width s.height := by
  unfold egl_desktopRenderScaleAlgo scaleSelectSpec
  split_ifs <;> first | rfl | (cases scaleType <;> simp_all)

/-- C4: after every `egl_desktopResize` on a reachable surface state, the
derived `upscale` flag equals `(w > sourceW) && (h > sourceH)`, both
UpscaleOnly (FSR) passes satisfy `activeNow = enabledByUser && upscale`, and
`enabledByUser` itself is untouched by the resize. -/
theorem egl_desktopResize_upscale_derivation (s : EGL_Desktop) (w h : Int)
    (hs : Reachable s) :
    ((egl_desktopResize s w h).upscale = true ↔ (w > s.width ∧ h > s.height)) ∧
    (egl_desktopResize s w h).ffxFSR1Active0 =
      ((egl_desktopResize s w h).ffxFSR1Enable &&
        (egl_desktopResize s w h).upscale) ∧
    (egl_desktopResize s w h).ffxFSR1Active1 =
      ((egl_desktopResize s w h).ffxFSR1Enable &&
        (egl_desktopResize s w h).upscale) ∧
    (egl_desktopResize s w h).ffxFSR1Enable = s.ffxFSR1Enable := by
  obtain ⟨inv0, inv1⟩ := reachable_fsrInvar s hs
  simp only [egl_desktopResize]
  split_ifs with hc he <;> simp_all

theorem egl_desktopResize_upscale_derivation_witness :
    ((egl_desktopResize initStateA 8 8).upscale = true ↔
      (8 > initStateA.width ∧ 8 > initStateA.height)) ∧
    (egl_desktopResize initStateA 8 8).ffxFSR1Active0 =
      ((egl_desktopResize initStateA 8 8).ffxFSR1Enable &&
        (egl_desktopResize initStateA 8 8).upscale) ∧
    (egl_desktopResize initStateA 8 8).ffxFSR1Active1 =
      ((egl_desktopResize initStateA 8 8).ffxFSR1Enable &&
        (egl_desktopResize initStateA 8 8).upscale) ∧
    (egl_desktopResize initStateA 8 8).ffxFSR1Enable =
      initStateA.ffxFSR1Enable :=
  egl_desktopResize_upscale_derivation initStateA 8 8 initStateA_reachable

/-- C5 counterexample: the claim says an UpscaleOnly stage's `activeNow` is
false whenever the surface is not upscaling, as an invariant preserved by
every operation including the initial filter attachment.  It is false there:
a successful `egl_desktopInit` with the FSR filter enabled in the
configuration leaves `upscale = false` while both FSR passes are attached
with `activeNow = true`, because `setupFilters` passes `ffxFSR1Enable` to
`egl_textureAddFilter` without consulting `upscale`. -/
theorem setupFilters_ignores_upscale_counterexample :
    (egl_desktopInit ⟨true, true, true, true, true⟩
        ⟨4, 0, 0, 0, true, true, 0, false, 0⟩).map
      (fun t => (t.upscale, t.ffxFSR1Active0, t.ffxFSR1Active1)) =
      some (false, true, true) := rfl

/-- C5 (amended): after every `egl_desktopResize`, each UpscaleOnly (FSR)
pass's `activeNow` is false whenever the surface is not upscaling; however,
the initial filter attachment and the downgrade re-attachment (`setupFilters`)
set `activeNow = enabledByUser` regardless of `upscale`, so the invariant can
be violated there until the next resize or filter toggle. -/
theorem upscaleOnly_inactive_when_not_upscaling (s : EGL_Desktop) (w h : Int)
    (hdown : (egl_desktopResize s w h).upscale = false) :
    (egl_desktopResize s w h).ffxFSR1Active0 = false ∧
    (egl_desktopResize s w h).ffxFSR1Active1 = false ∧
    (∀ t : EGL_Desktop,
      (setupFilters t).ffxFSR1Active0 = t.ffxFSR1Enable ∧
      (setupFilters t).ffxFSR1Active1 = t.ffxFSR1Enable) := by
  refine ⟨?_, ?_, fun t => ⟨rfl, rfl⟩⟩ <;>
    (simp only [egl_desktopResize] at hdown ⊢
     split_ifs at hdown ⊢
     simp_all)

theorem upscaleOnly_inactive_when_not_upscaling_witness :
    (egl_desktopResize sampleState 100 100).ffxFSR1Active0 = false ∧
    (egl_desktopResize sampleState 100 100).ffxFSR1Active1 = false ∧
    (∀ t : EGL_Desktop,
      (setupFilters t).ffxFSR1Active0 = t.ffxFSR1Enable ∧
      (setupFilters t).ffxFSR1Active1 = t.ffxFSR1Enable) :=
  upscaleOnly_inactive_when_not_upscaling sampleState 100 100 (by decide)

/-- C6 counterexample: the claim says every path that sets the FSR sharpness
stores `2.0 - r*2.0`, including the initial load from the configuration
store.  The initial load does not: `egl_desktopInit` stores the raw
configured value into the FSR uniform (desktop.c line 206).  With a
configured raw value of 1/2, the stored uniform is 1/2, not
`2 - (1/2)*2 = 1`. -/
theorem fsr_sharpness_initial_load_counterexample :
    (egl_desktopInit ⟨true, true, true, true, true⟩
        ⟨4, 0, 0, 0, true, true, 1/2, false, 0⟩).map
      (fun t => t.ffxFSR1Uniform) = some (1/2) ∧
    (2 - (1/2 : ℚ) * 2) ≠ (1/2 : ℚ) := by
  constructor
  · rfl
  · norm_num

/-- C6 (amended): the config-UI path derives the FSR sharpness uniform as
`2.0 - r*2.0` from the slider value and stores the single-pass (CAS) stage's
raw slider value unmodified; the initial load from the configuration store,
however, stores the raw configured value unmodified for BOTH stages (no
`2 - 2r` transform for FSR). -/
theorem sharpness_uniform_derivation (s : EGL_Desktop) (inp : ConfigUIInput)
    (env : InitEnv) (opts : InitOptions) (t : EGL_Desktop) :
    (egl_desktopInit env opts = some t →
      t.ffxFSR1Uniform = opts.ffxFSRSharpness ∧
      t.ffxCASUniform = opts.ffxCASSharpness) ∧
    (inp.fsr1Sharpness ≠ s.ffxFSR1Uniform →
      (egl_desktopConfigUI s inp).1.ffxFSR1Uniform =
        2 - inp.fsr1Sharpness * 2) ∧
    (inp.casSharpness ≠ s.ffxCASUniform →
      (egl_desktopConfigUI s inp).1.ffxCASUniform = inp.casSharpness) := by
  refine ⟨?_, ?_, ?_⟩
  · intro hinit
    unfold egl_desktopInit at hinit
    split_ifs at hinit
    injection hinit with hinit
    rw [← hinit]
    simp [setupFilters]
  · intro hne
    simp only [egl_desktopConfigUI]
    rw [(uiCasPhase_fsrFields _ _ _).2.2.2.1]
    apply uiFsrPhase_uniform
    rw [(uiPre_fields inp s).2.2.2.1]
    exact hne
  · intro hne
    simp only [egl_desktopConfigUI]
    apply uiCasPhase_uniform
    rw [(uiFsrPhase_casFields inp _).2.2.1, (uiPre_fields inp s).2.2.2.2.2.2.1]
    exact hne

theorem sharpness_uniform_derivation_witness :
    (initStateA.ffxFSR1Uniform = 0 ∧ initStateA.ffxCASUniform = 0) ∧
    (egl_desktopConfigUI sampleState
      ⟨none, 0, false, 1/2, false, 3/4⟩).1.ffxFSR1Uniform =
      2 - (1/2 : ℚ) * 2 ∧
    (egl_desktopConfigUI sampleState
      ⟨none, 0, false, 1/2, false, 3/4⟩).1.ffxCASUniform = (3/4 : ℚ) := by
  have h := sharpness_uniform_derivation sampleState
    ⟨none, 0, false, 1/2, false, 3/4⟩ ⟨true, true, true, true, true⟩
    ⟨4, 0, 0, 0, true, false, 0, false, 0⟩ initStateA
  exact ⟨h.1 rfl, h.2.1 (by norm_num [sampleState]),
    h.2.2 (by norm_num [sampleState])⟩

/-- C7: starting from night-vision gain 0 with `nvMax ≥ 0`, after `n`
keybind toggles the gain equals `n mod (nvMax + 1)`; each single toggle maps a
gain `g ∈ [0, nvMax]` to `(g + 1) mod (nvMax + 1)`; and every toggle forces a
window redraw. -/
theorem toggleNV_cyclic_law (s : EGL_Desktop) (n : Nat) (h0 : s.nvGain = 0)
    (hmax : 0 ≤ s.nvMax) :
    (nvIterate s n).nvGain = (n : Int) % (s.nvMax + 1) ∧
    (∀ t : EGL_Desktop, 0 ≤ t.nvGain → t.nvGain ≤ t.nvMax →
      (toggleNV t).1.nvGain = (t.nvGain + 1) % (t.nvMax + 1)) ∧
    (∀ t : EGL_Desktop, (toggleNV t).2 = true) := by
  refine ⟨?_, fun t => toggleNV_gain t, fun t => rfl⟩
  have key : ∀ m : Nat, (nvIterate s m).nvGain = (m : Int) % (s.nvMax + 1) ∧
      (nvIterate s m).nvMax = s.nvMax := by
    intro m
    induction m with
    | zero => simp [nvIterate, h0, Int.zero_emod]
    | succ k ih =>
        obtain ⟨hg, hm⟩ := ih
        have hpos : (0 : Int) < s.nvMax + 1 := by omega
        have hb0 : 0 ≤ (nvIterate s k).nvGain := by
          rw [hg]; exact Int.emod_nonneg _ (by omega)
        have hb1 : (nvIterate s k).nvGain ≤ (nvIterate s k).nvMax := by
          rw [hg, hm]
          have := Int.emod_lt_of_pos (k : Int) hpos
          omega
        constructor
        · rw [nvIterate, toggleNV_gain _ hb0 hb1, hg, hm, Int.emod_add_emod]
          push_cast
          ring_nf
        · rw [nvIterate, toggleNV_nvMax, hm]
  exact (key n).1

theorem toggleNV_cyclic_law_witness :
    (nvIterate { sampleState with nvMax := 2 } 5).nvGain =
      (5 : Int) % ({ sampleState with nvMax := 2 }.nvMax + 1) ∧
    (∀ t : EGL_Desktop, 0 ≤ t.nvGain → t.nvGain ≤ t.nvMax →
      (toggleNV t).1.nvGain = (t.nvGain + 1) % (t.nvMax + 1)) ∧
    (∀ t : EGL_Desktop, (toggleNV t).2 = true) :=
  toggleNV_cyclic_law { sampleState with nvMax := 2 } 5 rfl (by norm_num)

/-- C8: for either filter stage (FSR or CAS), a config-UI interaction that
changes the stage's sharpness slider away from the stored uniform while the
stage is disabled (checkbox off, `enabledByUser = false`) leaves
`enabledByUser = true` afterwards and marks the frame dirty: the texture is
invalidated and the window invalidated, with no geometry change required. -/
theorem sharpness_set_enables_stage (s : EGL_Desktop) (inp : ConfigUIInput) :
    (inp.fsr1Box = false → s.ffxFSR1Enable = false →
      inp.fsr1Sharpness ≠ s.ffxFSR1Uniform →
      (egl_desktopConfigUI s inp).1.ffxFSR1Enable = true ∧
      (egl_desktopConfigUI s inp).2.texInvalidated = true ∧
      (egl_desktopConfigUI s inp).2.windowInvalidated = true) ∧
    (inp.casBox = false → s.ffxCASEnable = false →
      inp.casSharpness ≠ s.ffxCASUniform →
      (egl_desktopConfigUI s inp).1.ffxCASEnable = true ∧
      (egl_desktopConfigUI s inp).2.texInvalidated = true ∧
      (egl_desktopConfigUI s inp).2.windowInvalidated = true) := by
  constructor
  · intro hbox hen hne
    obtain ⟨hfe, hinv⟩ := uiFsrPhase_sharpen inp (uiPre inp s) hbox
      (by rw [(uiPre_fields inp s).1]; exact hen)
      (by rw [(uiPre_fields inp s).2.2.2.1]; exact hne)
    simp only [egl_desktopConfigUI]
    rw [hinv]
    refine ⟨?_, uiCasPhase_inv_mono inp _, uiCasPhase_inv_mono inp _⟩
    rw [(uiCasPhase_fsrFields inp _ _).1]
    exact hfe
  · intro hbox hen hne
    obtain ⟨hce, hinv⟩ := uiCasPhase_sharpen inp
      (uiFsrPhase inp (uiPre inp s)).2 (uiFsrPhase inp (uiPre inp s)).1 hbox
      (by rw [(uiFsrPhase_casFields inp _).1, (uiPre_fields inp s).2.2.2.2.1]
          exact hen)
      (by rw [(uiFsrPhase_casFields inp _).2.2.1,
              (uiPre_fields inp s).2.2.2.2.2.2.1]
          exact hne)
    simp only [egl_desktopConfigUI]
    exact ⟨hce, by rw [hinv], by rw [hinv]⟩

theorem sharpness_set_enables_stage_witness :
    ((egl_desktopConfigUI sampleState
        ⟨none, 0, false, 1/2, false, 3/4⟩).1.ffxFSR1Enable = true ∧
      (egl_desktopConfigUI sampleState
        ⟨none, 0, false, 1/2, false, 3/4⟩).2.texInvalidated = true ∧
      (egl_desktopConfigUI sampleState
        ⟨none, 0, false, 1/2, false, 3/4⟩).2.windowInvalidated = true) ∧
    ((egl_desktopConfigUI sampleState
        ⟨none, 0, false, 1/2, false, 3/4⟩).1.ffxCASEnable = true) := by
  have h := sharpness_set_enables_stage sampleState
    ⟨none, 0, false, 1/2, false, 3/4⟩
  exact ⟨h.1 rfl rfl (by norm_num [sampleState]),
    (h.2 rfl rfl (by norm_num [sampleState])).1⟩

/-- C9: the scale-algorithm validator accepts a persisted value `v` exactly
when `0 ≤ v < EGL_SCALE_MAX`; every out-of-range value is rejected with the
descriptive error message (no clamping), and the configuration store then
keeps the previously accepted value. -/
theorem egl_desktopScaleValidate_range (v : Int) :
    ((egl_desktopScaleValidate v).1 = true ↔ (0 ≤ v ∧ v < EGL_SCALE_MAX)) ∧
    (¬(0 ≤ v ∧ v < EGL_SCALE_MAX) →
      egl_desktopScaleValidate v =
        (false, some "Invalid scale algorithm number") ∧
      ∀ cur : Int, scaleOptionLoad cur v =
        (cur, some "Invalid scale algorithm number")) := by
  constructor
  · unfold egl_desktopScaleValidate
    split_ifs with h
    · simp [h]
    · simp [h]
  · intro h
    have hv : egl_desktopScaleValidate v =
        (false, some "Invalid scale algorithm number") := by
      unfold egl_desktopScaleValidate
      split_ifs
      simp_all
    refine ⟨hv, fun cur => ?_⟩
    unfold scaleOptionLoad
    rw [hv]

theorem egl_desktopScaleValidate_range_witness :
    egl_desktopScaleValidate 99 =
      (false, some "Invalid scale algorithm number") ∧
    scaleOptionLoad 0 99 = (0, some "Invalid scale algorithm number") := by
  have h := (egl_desktopScaleValidate_range 99).2 (by norm_num [EGL_SCALE_MAX])
  exact ⟨h.1, h.2 0⟩

/-- C10: for every format whose type is none of BGRA/RGBA/RGBA10/RGBA16F,
`egl_desktopSetup` returns false and leaves the stored width and height
unchanged, but the stored format field has already been overwritten with the
rejected format (the `memcpy` precedes validation) — so setup is not atomic
on error, and a later DMA-failure downgrade re-running setup with the stored
"last-known" format uses the rejected format and fails. -/
theorem egl_desktopSetup_not_atomic_on_error (s : EGL_Desktop)
    (fmt : RendererFormat) (ok : Bool)
    (h1 : fmt.type ≠ .BGRA) (h2 : fmt.type ≠ .RGBA) (h3 : fmt.type ≠ .RGBA10)
    (h4 : fmt.type ≠ .RGBA16F) :
    (egl_desktopSetup s fmt ok).2 = false ∧
    (egl_desktopSetup s fmt ok).1.width = s.width ∧
    (egl_desktopSetup s fmt ok).1.height = s.height ∧
    (egl_desktopSetup s fmt ok).1.format = fmt ∧
    (∀ (env : UpdateEnv) (frame : Nat) (dmaFd : Int)
        (rects : List FrameDamageRect),
      s.useDMA = true → dmaFd ≥ 0 → env.dmaOk = false → env.initOk = true →
      (egl_desktopUpdate (egl_desktopSetup s fmt ok).1 env frame dmaFd
        rects).2.2.rerunSetup = some fmt ∧
      (egl_desktopUpdate (egl_desktopSetup s fmt ok).1 env frame dmaFd
        rects).2.1 = false) := by
  have hother : fmt.type = .other := by
    cases hft : fmt.type <;> simp_all
  have hpf : pixFmtOf fmt.type = none := by rw [hother]; rfl
  have hsetup : egl_desktopSetup s fmt ok = ({ s with format := fmt }, false) := by
    unfold egl_desktopSetup
    rw [hpf]
  rw [hsetup]
  refine ⟨rfl, rfl, rfl, rfl,
    fun env frame dmaFd rects hdma hfd hfail hinit => ?_⟩
  have hres := update_dmaFail_spec { s with format := fmt } env frame dmaFd
    rects (by simpa using hdma) hfd hfail
  refine ⟨by simpa using (hres.2.2.2.2.2 hinit).2.1, ?_⟩
  have hguard : ((pixFmtOf ({ s with format := fmt }).format.type).isSome &&
      env.texSetupOk) = false := by
    simp [hpf]
  exact ((hres.2.2.2.2.2 hinit).2.2.1 hguard).1

theorem egl_desktopSetup_not_atomic_on_error_witness :
    (egl_desktopSetup sampleState ⟨.other, 640, 480, 2560⟩ true).2 = false ∧
    (egl_desktopSetup sampleState ⟨.other, 640, 480, 2560⟩ true).1.width =
      sampleState.width ∧
    (egl_desktopSetup sampleState ⟨.other, 640, 480, 2560⟩ true).1.height =
      sampleState.height ∧
    (egl_desktopSetup sampleState ⟨.other, 640, 480, 2560⟩ true).1.format =
      ⟨.other, 640, 480, 2560⟩ ∧
    (egl_desktopUpdate
      (egl_desktopSetup sampleState ⟨.other, 640, 480, 2560⟩ true).1
      ⟨false, true, true, true⟩ 7 3 []).2.2.rerunSetup =
      some ⟨.other, 640, 480, 2560⟩ ∧
    (egl_desktopUpdate
      (egl_desktopSetup sampleState ⟨.other, 640, 480, 2560⟩ true).1
      ⟨false, true, true, true⟩ 7 3 []).2.1 = false := by
  have h := egl_desktopSetup_not_atomic_on_error sampleState
    ⟨.other, 640, 480, 2560⟩ true (by decide) (by decide) (by decide)
    (by decide)
  have hi := h.2.2.2.2 ⟨false, true, true, true⟩ 7 3 [] rfl (by norm_num) rfl
    rfl
  exact ⟨h.1, h.2.1, h.2.2.1, h.2.2.2.1, hi.1, hi.2⟩
